import Mathlib

/-!
# RaspiCamera capture pipeline: embedding and verified properties

A shallow embedding of `src/kerberos/capture/RaspiCamera.cpp`.

The C++ member functions become state-passing functions over a `World`
(the global `state`, the members of the `RaspiCamera` object and a trace of
the calls made on the mutex, on the camera handle and on the IL hardware
layer).  A C++ call may return or throw; a function of the embedding returns
`Except Exn α` together with the world reached, so that every assignment made
before a throw is still visible afterwards, as it is in C++.

The libraries the file calls into (the IL component layer, the RaspiCam
handle behind `m_camera`, `Image`, the `Capture` base class) are not part of
the translated file.  How one of their calls ends is given by an environment
`Env`, over which every theorem quantifies: an OpenCV-side call returns or
throws `cv::Exception`; a call into the IL layer succeeds, throws, or
returns an error result, which `open` (lines 138-162) never looks at.
-/

namespace kerberos

/-! ## Data model -/

/-- Lifecycle states named by the source: `Component::StateIdle`,
`Component::StateExecuting`. -/
inductive ILState where
  | StateIdle
  | StateExecuting
  deriving DecidableEq, Repr

/-- Coding formats named by the source: `VideoEncode::CodingMJPEG`,
`VideoEncode::CodingAVC`. -/
inductive CodingType where
  | CodingMJPEG
  | CodingAVC
  deriving DecidableEq, Repr

/-- The three component pointers of the global `state`. -/
inductive Slot where
  | camera
  | preview_encode
  | record_encode
  deriving DecidableEq, Repr

/-- Calls of `RaspiCamera::open` into the IL hardware layer, with the
arguments the source passes. -/
inductive HwCall where
  | bcm_host_init
  | newCamera (width height device : Nat) (highSpeed : Bool) (sensorMode : Nat) (verbose : Bool)
  | newVideoEncode (bitrate : Nat) (coding : CodingType) (liveMode verbose : Bool)
  | setFramerate (fps : Nat)
  | CopyPort (src : Slot) (srcPort : Nat) (dst : Slot) (dstPort : Nat)
  | SetupTunnelVideo (dst : Slot)
  | SetState (c : Slot) (target : ILState)
  | AllocateOutputBuffer (c : Slot) (port : Nat)
  | AllocateInputBuffer (c : Slot) (port : Nat)
  | SetCapturing (enabled : Bool)
  deriving DecidableEq, Repr

/-- Property identifiers passed to `m_camera->set`. -/
inductive CapProp where
  | CV_CAP_PROP_FORMAT
  | CV_CAP_PROP_FRAME_WIDTH
  | CV_CAP_PROP_FRAME_HEIGHT
  deriving DecidableEq, Repr

/-- The OpenCV matrix type constant `CV_8UC3`. -/
def CV_8UC3 : Int := 16

/-- Calls into the OpenCV-side driver and library, each of which may raise
`cv::Exception`: the calls on the camera handle `m_camera` and the rotation
of the image. -/
inductive CvCall where
  | grab
  | retrieve
  | set (prop : CapProp) (value : Int)
  | release
  | rotate (angle : Int)
  deriving DecidableEq, Repr

/-- A call on the camera handle `m_camera` (everything but `image->rotate`). -/
def CvCall.onHandle : CvCall → Bool
  | .rotate _ => false
  | _ => true

/-- Observable events, in program order. -/
inductive Ev where
  | lock
  | unlock
  | hw (c : HwCall)
  | cv (c : CvCall)
  deriving DecidableEq, Repr

/-- The exceptions that travel through the translated code: `cv::Exception`
with its `msg`, the typed `OpenCVException` built from `ex.msg.c_str()`,
the `std::out_of_range` of `StringMap::at`, and a failure thrown by the IL
layer.  A message is the text of the C string. -/
inductive Exn where
  | cvException (msg : String)
  | OpenCVException (msg : String)
  | out_of_range
  | hwFailure (msg : String)
  deriving DecidableEq, Repr

/-- How a call into the IL hardware layer ends: it succeeds, it throws, or
it fails and says so only through the result it returns (an error status),
in which case the call has not done its work. -/
inductive HwOutcome where
  | ok
  | throws (msg : String)
  | returnsError (msg : String)
  deriving DecidableEq, Repr

/-- The message of the exception when the call throws. -/
def HwOutcome.thrown : HwOutcome → Option String
  | .throws msg => some msg
  | _ => none

/-- The call returned and did its work. -/
def HwOutcome.succeeded : HwOutcome → Bool
  | .ok => true
  | _ => false

/-- Behaviour of the libraries behind the translated file.  For each call
into the IL layer, `hw` gives its outcome.  For each OpenCV-side call, `cv`
is `none` when it returns normally and `some m` when it throws
`cv::Exception` with `msg = m`.  Within one member function no call is made
twice with the same arguments, so an answer per call covers every behaviour
of the libraries during that function. -/
structure Env where
  hw : HwCall → HwOutcome
  cv : CvCall → Option String

/-- The sensor component (`IL::Camera`): its constructor arguments and what
the successful calls of `open` have done to it. -/
structure Camera where
  width : Nat
  height : Nat
  device : Nat
  highSpeed : Bool
  sensorMode : Nat
  verbose : Bool
  framerate : Option Nat := none
  state : Option ILState := none
  outputBuffers : List Nat := []
  tunnelVideo : Option Slot := none
  capturing : Bool := false
  deriving DecidableEq, Repr

/-- An encoder component (`IL::VideoEncode`). -/
structure VideoEncode where
  bitrate : Nat
  coding : CodingType
  liveMode : Bool
  verbose : Bool
  state : Option ILState := none
  inputBuffers : List Nat := []
  copiedPorts : List (Nat × Slot × Nat) := []
  deriving DecidableEq, Repr

/-- The global `struct State` (the two unused `pthread_t` fields are left
out); a null pointer is `none`. -/
structure State where
  camera : Option Camera := none
  preview_encode : Option VideoEncode := none
  record_encode : Option VideoEncode := none
  recording : Bool := false
  running : Bool := false
  deriving DecidableEq, Repr

/-- The camera handle behind `m_camera`. -/
structure RaspiCam_Cv where
  opened : Bool := false
  props : List (CapProp × Int) := []
  deriving DecidableEq, Repr

/-- An `Image`: whether a frame was retrieved into it and the rotations
applied to it. -/
structure Image where
  retrieved : Bool := false
  rotations : List Int := []
  deriving DecidableEq, Repr

/-- Everything the translated functions read or write. `m_lock` is `true`
while the mutex is held. -/
structure World where
  state : State := {}
  m_camera : RaspiCam_Cv := {}
  m_lock : Bool := false
  m_frameWidth : Int := 0
  m_frameHeight : Int := 0
  m_angle : Int := 0
  m_delay : Int := 0
  trace : List Ev := []
  deriving DecidableEq, Repr

/-- The world at program start: `state = { nullptr, nullptr, nullptr, false,
false }`, the mutex free, nothing called yet. -/
def World.initial : World := {}

/-! ## Computations that may throw -/

/-- A C++ computation: from a world to a result or an exception, and the
world reached either way. -/
def M (α : Type) : Type := World → Except Exn α × World

/-- Sequencing: an exception skips the rest and keeps the world. -/
def M.bind {α β : Type} (m : M α) (f : α → M β) : M β := fun w =>
  match m w with
  | (.ok a, w') => f a w'
  | (.error e, w') => (.error e, w')

instance : Monad M where
  pure a := fun w => (.ok a, w)
  bind := M.bind

/-- The C++ `throw`. -/
def throwExn {α : Type} (e : Exn) : M α := fun w => (.error e, w)

/-- The C++ `try { body } catch (cv::Exception & ex) { handler ex.msg }`:
only `cv::Exception` is caught, any other exception passes through. -/
def tryCatchCv {α : Type} (body : M α) (handler : String → M α) : M α := fun w =>
  match body w with
  | (.ok a, w') => (.ok a, w')
  | (.error (.cvException msg), w') => handler msg w'
  | (.error e, w') => (.error e, w')

/-- Record an event. -/
def emit (e : Ev) : M Unit := fun w => (.ok (), { w with trace := w.trace ++ [e] })

/-- Assign to the world. -/
def modifyWorld (f : World → World) : M Unit := fun w => (.ok (), f w)

/-- Read the world. -/
def getWorld : M World := fun w => (.ok w, w)

/-- A call into the OpenCV-side driver: it is recorded, then returns or
throws `cv::Exception` as the environment says. -/
def cvCall (env : Env) (c : CvCall) : M Unit := do
  emit (.cv c)
  match env.cv c with
  | none => pure ()
  | some msg => throwExn (.cvException msg)

/-- A call into the IL hardware layer: it is recorded, then it throws, or it
returns its result: `true` when it succeeded, `false` when it returned an
error. -/
def hwCall (env : Env) (c : HwCall) : M Bool := do
  emit (.hw c)
  match env.hw c with
  | .ok => pure true
  | .returnsError _ => pure false
  | .throws msg => throwExn (.hwFailure msg)

/-- The call `pthread_mutex_lock(&m_lock)`.  On a mutex that is already held
the real call would block; the translated functions lock at most once and
the properties below enter them with the mutex free. -/
def pthread_mutex_lock : M Unit := do
  emit .lock
  modifyWorld fun w => { w with m_lock := true }

/-- The call `pthread_mutex_unlock(&m_lock)`; on a mutex that is not held the
call is still recorded and the mutex stays free. -/
def pthread_mutex_unlock : M Unit := do
  emit .unlock
  modifyWorld fun w => { w with m_lock := false }

/-! ## Frame acquisition (`grab`, `retrieve`, `takeImage`) -/

/-- Modelled from the spec: the driver call `m_camera->grab()`, which
acquires the next raw frame into the driver's internal buffer; it returns or
raises as the environment says. -/
def m_camera_grab (env : Env) : M Unit := cvCall env .grab

/-- Modelled from the spec: the driver call
`m_camera->retrieve(image.getImage())`, which decodes the most recently
grabbed frame into the image buffer of the caller. -/
def m_camera_retrieve (env : Env) (image : Image) : M Image := do
  cvCall env .retrieve
  return { image with retrieved := true }

/-- Modelled from the spec: the call `image->rotate(angle)` of the image
container, which applies the rotation in place and may raise
`cv::Exception`. -/
def Image.rotate (env : Env) (image : Image) (angle : Int) : M Image := do
  cvCall env (.rotate angle)
  return { image with rotations := image.rotations ++ [angle] }

/-- Source lines 38-51. -/
def RaspiCamera.grab (env : Env) : M Unit :=
  tryCatchCv
    (do
      pthread_mutex_lock
      m_camera_grab env
      pthread_mutex_unlock)
    (fun msg => do
      pthread_mutex_unlock
      throwExn (.OpenCVException msg))

/-- Source lines 53-68. -/
def RaspiCamera.retrieve (env : Env) : M Image :=
  tryCatchCv
    (do
      let image : Image := {}
      pthread_mutex_lock
      let image ← m_camera_retrieve env image
      pthread_mutex_unlock
      return image)
    (fun msg => do
      pthread_mutex_unlock
      throwExn (.OpenCVException msg))

/-- Source line 172: an empty body. -/
def RaspiCamera.update : M Unit := pure ()

/-- Modelled from the spec: the executor class behind `tryToUpdateCapture` is
not part of the translated file; calling it is the periodic settings-refresh
hook, which runs its action `RaspiCamera::update` on some of the calls.  The
action has an empty body, so the world is the same whether it runs or not. -/
def tryToUpdateCapture : M Unit := RaspiCamera.update

/-- The C library call `usleep`: the elapsed time is not part of the
world. -/
def usleep (_usec : Int) : M Unit := pure ()

/-- Source lines 70-99. -/
def RaspiCamera.takeImage (env : Env) : M Image := do
  tryToUpdateCapture
  let image : Image := {}
  let image ← tryCatchCv
    (do
      -- Delay camera for some time..
      usleep ((← getWorld).m_delay * 1000)
      -- take an image
      pthread_mutex_lock
      m_camera_grab env
      let image ← m_camera_retrieve env image
      pthread_mutex_unlock
      -- Check if need to rotate the image
      let image ← Image.rotate env image (← getWorld).m_angle
      return image)
    (fun msg => do
      pthread_mutex_unlock
      throwExn (.OpenCVException msg))
  return image

/-! ## Configuration (`setImageSize`, `setRotation`, `setDelay`) -/

/-- Modelled from the spec: the `Capture` base class is not part of the
translated file; its `setImageSize` is the image-size bookkeeping that stores
the two values in `m_frameWidth` and `m_frameHeight`, which the caller reads
back on the next lines. -/
def Capture.setImageSize (width height : Int) : M Unit :=
  modifyWorld fun w => { w with m_frameWidth := width, m_frameHeight := height }

/-- Modelled from the spec: the rotation bookkeeping of the `Capture` base
class, which stores the angle in `m_angle`. -/
def Capture.setRotation (angle : Int) : M Unit :=
  modifyWorld fun w => { w with m_angle := angle }

/-- Modelled from the spec: the delay bookkeeping of the `Capture` base
class, which stores the delay in `m_delay`. -/
def Capture.setDelay (msec : Int) : M Unit :=
  modifyWorld fun w => { w with m_delay := msec }

/-- Modelled from the spec: the driver call `m_camera->set(prop, value)`;
when it returns, the handle holds the value. -/
def m_camera_set (env : Env) (prop : CapProp) (value : Int) : M Unit := do
  cvCall env (.set prop value)
  modifyWorld fun w =>
    { w with m_camera := { w.m_camera with props := w.m_camera.props ++ [(prop, value)] } }

/-- Source lines 101-115. -/
def RaspiCamera.setImageSize (env : Env) (width height : Int) : M Unit := do
  Capture.setImageSize width height
  tryCatchCv
    (do
      m_camera_set env .CV_CAP_PROP_FORMAT CV_8UC3
      m_camera_set env .CV_CAP_PROP_FRAME_WIDTH (← getWorld).m_frameWidth
      m_camera_set env .CV_CAP_PROP_FRAME_HEIGHT (← getWorld).m_frameHeight)
    (fun msg => do
      pthread_mutex_unlock
      throwExn (.OpenCVException msg))

/-- Source lines 117-120. -/
def RaspiCamera.setRotation (angle : Int) : M Unit :=
  Capture.setRotation angle

/-- Source lines 122-125. -/
def RaspiCamera.setDelay (msec : Int) : M Unit :=
  Capture.setDelay msec

/-! ## Pipeline bring-up (`open`, `close`, `isOpened`) -/

/-- Assign to the global `state`. -/
def modifyState (f : State → State) : M Unit :=
  modifyWorld fun w => { w with state := f w.state }

/-- Update the component behind `state.camera`. -/
def State.onCamera (f : Camera → Camera) (s : State) : State :=
  { s with camera := s.camera.map f }

/-- Update the component behind `state.preview_encode`. -/
def State.onPreview (f : VideoEncode → VideoEncode) (s : State) : State :=
  { s with preview_encode := s.preview_encode.map f }

/-- Update the component behind `state.record_encode`. -/
def State.onRecord (f : VideoEncode → VideoEncode) (s : State) : State :=
  { s with record_encode := s.record_encode.map f }

/-- Put the component behind pointer `c` in lifecycle state `target`. -/
def State.setLifecycle (c : Slot) (target : ILState) (s : State) : State :=
  match c with
  | .camera => State.onCamera (fun x => { x with state := some target }) s
  | .preview_encode => State.onPreview (fun x => { x with state := some target }) s
  | .record_encode => State.onRecord (fun x => { x with state := some target }) s

/-- The work of a library call on the components: done when the call
succeeded, not done when it returned an error. -/
def whenDone (done : Bool) (f : State → State) (s : State) : State :=
  if done then f s else s

/-- The call `bcm_host_init()`, a C function that returns nothing and cannot
throw. -/
def bcm_host_init : M Unit := emit (.hw .bcm_host_init)

/-- Modelled from the spec: the expression `new Camera(width, height, device,
highSpeed, sensorMode, verbose)`, which instantiates the hardware stage and
returns it in a non-running state (no lifecycle state set yet).  A `new`
expression has no result but the pointer: it yields the component unless the
constructor throws. -/
def newCamera (env : Env) (width height device : Nat) (highSpeed : Bool) (sensorMode : Nat)
    (verbose : Bool) : M Camera := do
  let _ ← hwCall env (.newCamera width height device highSpeed sensorMode verbose)
  return { width := width, height := height, device := device, highSpeed := highSpeed,
           sensorMode := sensorMode, verbose := verbose }

/-- Modelled from the spec: the expression `new VideoEncode(bitrate, coding,
liveMode, verbose)`, which instantiates an encoder stage in a non-running
state; it yields the component unless the constructor throws. -/
def newVideoEncode (env : Env) (bitrate : Nat) (coding : CodingType) (liveMode verbose : Bool) :
    M VideoEncode := do
  let _ ← hwCall env (.newVideoEncode bitrate coding liveMode verbose)
  return { bitrate := bitrate, coding := coding, liveMode := liveMode, verbose := verbose }

/-- Modelled from the spec: the call `state.camera->setFramerate(fps)`, which
configures the sensor framerate; its result tells whether it succeeded. -/
def Camera.setFramerate (env : Env) (fps : Nat) : M Bool := do
  let done ← hwCall env (.setFramerate fps)
  modifyState (whenDone done (State.onCamera fun c => { c with framerate := some fps }))
  return done

/-- Modelled from the spec: the call
`Component::CopyPort(&state.camera->outputPorts()[srcPort],
&state.preview_encode->inputPorts()[dstPort])`, which propagates the port
definition from the sensor port to the encoder port. -/
def Component.CopyPort (env : Env) (srcPort dstPort : Nat) : M Bool := do
  let done ← hwCall env (.CopyPort .camera srcPort .preview_encode dstPort)
  modifyState (whenDone done (State.onPreview fun p =>
    { p with copiedPorts := p.copiedPorts ++ [(dstPort, .camera, srcPort)] }))
  return done

/-- Modelled from the spec: the call
`state.camera->SetupTunnelVideo(state.record_encode)`, which establishes the
tunnel from the sensor to the record encoder. -/
def Camera.SetupTunnelVideo (env : Env) : M Bool := do
  let done ← hwCall env (.SetupTunnelVideo .record_encode)
  modifyState (whenDone done (State.onCamera fun c =>
    { c with tunnelVideo := some .record_encode }))
  return done

/-- Modelled from the spec: the call `SetState(target)` on the component
behind a pointer of `state`, which requests a lifecycle transition; when it
succeeds, the component is in the target state, and when the driver rejects
the transition the component stays as it was. -/
def Component.SetState (env : Env) (c : Slot) (target : ILState) : M Bool := do
  let done ← hwCall env (.SetState c target)
  modifyState (whenDone done (State.setLifecycle c target))
  return done

/-- Modelled from the spec: the call
`state.camera->AllocateOutputBuffer(port)`, which reserves a manually managed
buffer for the port. -/
def Camera.AllocateOutputBuffer (env : Env) (port : Nat) : M Bool := do
  let done ← hwCall env (.AllocateOutputBuffer .camera port)
  modifyState (whenDone done (State.onCamera fun c =>
    { c with outputBuffers := c.outputBuffers ++ [port] }))
  return done

/-- Modelled from the spec: the call
`state.preview_encode->AllocateInputBuffer(port)`, which reserves a manually
managed buffer for the port. -/
def VideoEncode.AllocateInputBuffer (env : Env) (port : Nat) : M Bool := do
  let done ← hwCall env (.AllocateInputBuffer .preview_encode port)
  modifyState (whenDone done (State.onPreview fun p =>
    { p with inputBuffers := p.inputBuffers ++ [port] }))
  return done

/-- Modelled from the spec: the call `state.camera->SetCapturing(flag)`, which
enables capturing on the sensor. -/
def Camera.SetCapturing (env : Env) (flag : Bool) : M Bool := do
  let done ← hwCall env (.SetCapturing flag)
  modifyState (whenDone done (State.onCamera fun c => { c with capturing := flag }))
  return done

/-- Source lines 127-165.  No statement of the body looks at what a call
returns, and the body has no handler. -/
def RaspiCamera.open (env : Env) : M Unit := do
  -- Initialize hardware
  bcm_host_init
  -- Create components
  let camera ← newCamera env 1280 720 0 false 0 false
  modifyState fun s => { s with camera := some camera }
  let preview_encode ← newVideoEncode env 8192 .CodingMJPEG false false
  modifyState fun s => { s with preview_encode := some preview_encode }
  let record_encode ← newVideoEncode env 4096 .CodingAVC false false
  modifyState fun s => { s with record_encode := some record_encode }
  -- Setup camera
  let _ ← Camera.setFramerate env 30
  -- Copy preview port definition to the encoder
  let _ ← Component.CopyPort env 70 200
  -- Tunnel video port to AVC encoder
  let _ ← Camera.SetupTunnelVideo env
  -- Prepare components for next step
  let _ ← Component.SetState env .camera .StateIdle
  let _ ← Component.SetState env .preview_encode .StateIdle
  let _ ← Component.SetState env .record_encode .StateIdle
  -- Allocate buffers that will be processed manually
  let _ ← Camera.AllocateOutputBuffer env 70
  let _ ← VideoEncode.AllocateInputBuffer env 200
  -- Start components
  let _ ← Component.SetState env .camera .StateExecuting
  let _ ← Component.SetState env .preview_encode .StateExecuting
  let _ ← Component.SetState env .record_encode .StateExecuting
  -- Start capturing
  let _ ← Camera.SetCapturing env true
  modifyState fun s => { s with running := true }

/-- Modelled from the spec: the driver call `m_camera->release()`, the
release of the sensor handle; when it returns, the handle is no longer
open. -/
def m_camera_release (env : Env) : M Unit := do
  cvCall env .release
  modifyWorld fun w => { w with m_camera := { w.m_camera with opened := false } }

/-- Modelled from the spec: the driver-level query `m_camera->isOpened()`,
a read-only check whether the device is open. -/
def m_camera_isOpened : M Bool := do
  return (← getWorld).m_camera.opened

/-- Source lines 167-170. -/
def RaspiCamera.close (env : Env) : M Unit :=
  m_camera_release env

/-- Source lines 174-177. -/
def RaspiCamera.isOpened : M Bool :=
  m_camera_isOpened

/-! ## Settings and `setup` -/

/-- A `kerberos::StringMap` (`std::map<std::string, std::string>`) as an
association list. -/
abbrev StringMap := List (String × String)

/-- The call `settings.at(key)`: throws `std::out_of_range` on a missing
key. -/
def StringMap.at (settings : StringMap) (key : String) : M String :=
  match settings.lookup key with
  | some v => pure v
  | none => throwExn .out_of_range

/-- The C library classification `isspace` on the characters of a setting. -/
def isspace (c : Char) : Bool :=
  c.toNat = 32 || (9 ≤ c.toNat && c.toNat ≤ 13)

/-- The decimal digits at the head of `cs`, accumulated onto `acc`. -/
def atoiDigits : List Char → Nat → Nat
  | [], acc => acc
  | c :: cs, acc =>
    if 48 ≤ c.toNat ∧ c.toNat ≤ 57 then atoiDigits cs (acc * 10 + (c.toNat - 48)) else acc

/-- The C library `strtol` in base 10 with a 64-bit `long`: leading white
space, an optional sign, then digits; `0` when there are none; a value out
of range is clamped to the range of `long`, from `-2 ^ 63` to `2 ^ 63 - 1`. -/
def strtol10 (s : String) : Int :=
  let value : Int :=
    match s.toList.dropWhile isspace with
    | [] => 0
    | c :: cs =>
      if c.toNat = 45 then - (atoiDigits cs 0 : Int)
      else if c.toNat = 43 then (atoiDigits cs 0 : Int)
      else (atoiDigits (c :: cs) 0 : Int)
  max (-9223372036854775808) (min 9223372036854775807 value)

/-- The conversion of a `long` to the 32-bit `int`: the value modulo `2 ^ 32`
(4294967296), taken in the range from `-2 ^ 31` to `2 ^ 31 - 1`. -/
def toInt32 (n : Int) : Int :=
  (n + 2147483648) % 4294967296 - 2147483648

/-- The C library `atoi` on `s.c_str()`, which is `(int) strtol(s, 0, 10)`:
exact for a value that fits an `int`, wrapped into the `int` range
otherwise. -/
def atoi (s : String) : Int :=
  toInt32 (strtol10 s)

/-- Modelled from the spec: the executor class is not part of the translated
file; the two calls `tryToUpdateCapture.setAction(this, &RaspiCamera::update)`
and `tryToUpdateCapture.setInterval("once at 1000 calls")` configure the
periodic settings-refresh hook and touch nothing else. -/
def tryToUpdateCapture_configure (_interval : String) : M Unit := pure ()

/-- Modelled from the spec: `Capture::setup` of the base class is not part of
the translated file; it is the bookkeeping that saves width and height in
the settings and reaches neither the camera handle nor the pipeline. -/
def Capture.setup (_settings : StringMap) (_width _height _angle : Int) : M Unit := pure ()

/-- Source lines 17-36. -/
def RaspiCamera.setup (env : Env) (settings : StringMap) : M Unit := do
  let width := atoi (← settings.at "captures.RaspiCamera.frameWidth")
  let height := atoi (← settings.at "captures.RaspiCamera.frameHeight")
  let angle := atoi (← settings.at "captures.RaspiCamera.angle")
  let delay := atoi (← settings.at "captures.RaspiCamera.delay")
  -- Initialize executor
  tryToUpdateCapture_configure "once at 1000 calls"
  -- Save width and height in settings.
  Capture.setup settings width height angle
  RaspiCamera.setImageSize env width height
  RaspiCamera.setRotation angle
  RaspiCamera.setDelay delay
  -- Open camera
  RaspiCamera.open env

/-! ## Observations on traces and states -/

/-- The events recorded between world `w` and a later world `w'`. -/
def emitted (w w' : World) : List Ev := w'.trace.drop w.trace.length

/-- Replaying the lock events from lock state `held`: every call on the
camera handle is made while the lock is held. -/
def guardedFrom : Bool → List Ev → Bool
  | _, [] => true
  | _, .lock :: es => guardedFrom true es
  | _, .unlock :: es => guardedFrom false es
  | held, .cv c :: es => (!c.onHandle || held) && guardedFrom held es
  | held, .hw _ :: es => guardedFrom held es

/-- Replaying the lock events from lock state `held`: every lock is taken on
a free mutex and every unlock is performed on a held one. -/
def disciplinedFrom : Bool → List Ev → Bool
  | _, [] => true
  | held, .lock :: es => !held && disciplinedFrom true es
  | held, .unlock :: es => held && disciplinedFrom false es
  | held, .cv _ :: es => disciplinedFrom held es
  | held, .hw _ :: es => disciplinedFrom held es

/-- The fallible IL calls of `open`, in source order (lines 133-162). -/
def openCalls : List HwCall :=
  [ .newCamera 1280 720 0 false 0 false,
    .newVideoEncode 8192 .CodingMJPEG false false,
    .newVideoEncode 4096 .CodingAVC false false,
    .setFramerate 30,
    .CopyPort .camera 70 .preview_encode 200,
    .SetupTunnelVideo .record_encode,
    .SetState .camera .StateIdle,
    .SetState .preview_encode .StateIdle,
    .SetState .record_encode .StateIdle,
    .AllocateOutputBuffer .camera 70,
    .AllocateInputBuffer .preview_encode 200,
    .SetState .camera .StateExecuting,
    .SetState .preview_encode .StateExecuting,
    .SetState .record_encode .StateExecuting,
    .SetCapturing true ]

/-- The events of a complete run of `open`: `bcm_host_init`, then every call
of `openCalls`. -/
def openEvents : List Ev := (HwCall.bcm_host_init :: openCalls).map Ev.hw

/-- The global `state` after a complete run of `open`; `recording` is not
written by `open`. -/
def openedState (recording : Bool) : State :=
  { camera := some
      { width := 1280, height := 720, device := 0, highSpeed := false, sensorMode := 0,
        verbose := false, framerate := some 30, state := some .StateExecuting,
        outputBuffers := [70], tunnelVideo := some .record_encode, capturing := true },
    preview_encode := some
      { bitrate := 8192, coding := .CodingMJPEG, liveMode := false, verbose := false,
        state := some .StateExecuting, inputBuffers := [200],
        copiedPorts := [(200, .camera, 70)] },
    record_encode := some
      { bitrate := 4096, coding := .CodingAVC, liveMode := false, verbose := false,
        state := some .StateExecuting },
    recording := recording,
    running := true }

/-- All three components held in the pipeline state are in Executing
state. -/
def State.allExecuting (s : State) : Bool :=
  (match s.camera with
    | some c => c.state = some .StateExecuting
    | none => false)
  && (match s.preview_encode with
    | some p => p.state = some .StateExecuting
    | none => false)
  && (match s.record_encode with
    | some r => r.state = some .StateExecuting
    | none => false)

/-- The output buffer of the sensor on port 70 has been allocated. -/
def State.sensorOutputAllocated (s : State) : Bool :=
  match s.camera with
  | some c => c.outputBuffers.contains 70
  | none => false

/-- The pipeline-state invariant of the data model: `running == true` implies
that all three components are Executing and the sensor output buffer is
allocated. -/
def pipelineInvariant (s : State) : Prop :=
  s.running = true → s.allExecuting = true ∧ s.sensorOutputAllocated = true

instance (s : State) : Decidable (pipelineInvariant s) := by
  unfold pipelineInvariant
  infer_instance

/-- The message of the first call of `open`, in source order, that throws. -/
def Env.firstThrown (env : Env) : Option String :=
  openCalls.findSome? fun c => (env.hw c).thrown

/-- No step of `open` returns an error: each one succeeds or throws. -/
def Env.succeedsOrThrows (env : Env) : Bool :=
  openCalls.all fun c => (env.hw c).succeeded || (env.hw c).thrown.isSome

/-- A call that touches the pipeline state, with the behaviour of the
libraries during that call. -/
inductive Op where
  | open (env : Env)
  | close (env : Env)

/-- The world after one call, whether it returned or threw. -/
def Op.run : Op → World → World
  | .open env, w => (RaspiCamera.open env w).2
  | .close env, w => (RaspiCamera.close env w).2

/-- The world after a sequence of calls. -/
def runOps : List Op → World → World
  | [], w => w
  | op :: ops, w => runOps ops (op.run w)

/-- In the sequence `ops` run from `w`, `open()` is never entered while
`running` is already `true`. -/
def noReopen : World → List Op → Bool
  | _, [] => true
  | w, .open env :: ops => !w.state.running && noReopen (Op.run (.open env) w) ops
  | w, .close env :: ops => noReopen (Op.run (.close env) w) ops

/-- No step of the call returns an error (a `close()` has no such step). -/
def Op.succeedsOrThrows : Op → Bool
  | .open env => env.succeedsOrThrows
  | .close _ => true

/-- A request to move a component to Executing. -/
def Ev.isExecutingTransition : Ev → Bool
  | .hw (.SetState _ .StateExecuting) => true
  | _ => false

/-- A lifecycle transition request. -/
def Ev.isTransition : Ev → Bool
  | .hw (.SetState _ _) => true
  | _ => false

/-- A port binding (port copy or tunnel) or a buffer allocation. -/
def Ev.isBindingOrAllocation : Ev → Bool
  | .hw (.CopyPort _ _ _ _) => true
  | .hw (.SetupTunnelVideo _) => true
  | .hw (.AllocateOutputBuffer _ _) => true
  | .hw (.AllocateInputBuffer _ _) => true
  | _ => false

/-- A manual buffer allocation on component `c`. -/
def Ev.allocatesFor (c : Slot) : Ev → Bool
  | .hw (.AllocateOutputBuffer c' _) => c' = c
  | .hw (.AllocateInputBuffer c' _) => c' = c
  | _ => false

/-- From the first Executing transition on, no port binding and no buffer
allocation occurs. -/
def bindingsPrecedeExecuting (es : List Ev) : Bool :=
  (es.dropWhile fun e => !e.isExecutingTransition).all fun e => !e.isBindingOrAllocation

/-! ## Concrete inputs -/

/-- Every call succeeds. -/
def Env.allOk : Env := ⟨fun _ => .ok, fun _ => none⟩

/-- The OpenCV-side call `c` raises `cv::Exception` with message `m`. -/
def Env.cvFails (c : CvCall) (m : String) : Env :=
  ⟨fun _ => .ok, fun c' => if c' = c then some m else none⟩

/-- The IL call `c` throws with message `m`. -/
def Env.hwThrows (c : HwCall) (m : String) : Env :=
  ⟨fun c' => if c' = c then .throws m else .ok, fun _ => none⟩

/-- The IL call `c` returns an error with message `m`. -/
def Env.hwReturnsError (c : HwCall) (m : String) : Env :=
  ⟨fun c' => if c' = c then .returnsError m else .ok, fun _ => none⟩

/-- A complete settings map asking for 640x480 frames. -/
def settings640x480 : StringMap :=
  [ ("captures.RaspiCamera.frameWidth", "640"),
    ("captures.RaspiCamera.frameHeight", "480"),
    ("captures.RaspiCamera.angle", "0"),
    ("captures.RaspiCamera.delay", "0") ]

/-- A settings map without the `angle` key. -/
def settingsWithoutAngle : StringMap :=
  [ ("captures.RaspiCamera.frameWidth", "1280"),
    ("captures.RaspiCamera.frameHeight", "720"),
    ("captures.RaspiCamera.delay", "0") ]

/-! # Theorems -/

/-! ## Running the primitives -/

@[simp]
theorem pure_run {α : Type} (a : α) (w : World) : (pure a : M α) w = (.ok a, w) := rfl

@[simp]
theorem bind_run {α β : Type} (m : M α) (f : α → M β) (w : World) :
    (m >>= f) w = M.bind m f w := rfl

theorem emitted_append (w w' : World) (es : List Ev) (h : w'.trace = w.trace ++ es) :
    emitted w w' = es := by
  simp [emitted, h]

theorem cvCall_run (env : Env) (c : CvCall) (w : World) :
    cvCall env c w =
      ((match env.cv c with
        | none => .ok ()
        | some m => .error (.cvException m)), { w with trace := w.trace ++ [.cv c] }) := by
  unfold cvCall
  cases h : env.cv c <;> simp [M.bind, emit, throwExn, h]

/-! ## Running `grab`, `retrieve` and `takeImage` -/

theorem grab_run (env : Env) (w : World) :
    RaspiCamera.grab env w =
      ((match env.cv .grab with
        | none => .ok ()
        | some m => .error (.OpenCVException m)),
       { w with m_lock := false, trace := w.trace ++ [.lock, .cv .grab, .unlock] }) := by
  unfold RaspiCamera.grab tryCatchCv
  cases h : env.cv .grab <;>
    simp [M.bind, cvCall_run, m_camera_grab, m_camera_retrieve, Image.rotate,
      pthread_mutex_lock, pthread_mutex_unlock, emit, modifyWorld,
      throwExn, h]

theorem retrieve_run (env : Env) (w : World) :
    RaspiCamera.retrieve env w =
      ((match env.cv .retrieve with
        | none => .ok { retrieved := true }
        | some m => .error (.OpenCVException m)),
       { w with m_lock := false, trace := w.trace ++ [.lock, .cv .retrieve, .unlock] }) := by
  unfold RaspiCamera.retrieve tryCatchCv
  cases h : env.cv .retrieve <;>
    simp [M.bind, cvCall_run, m_camera_grab, m_camera_retrieve, Image.rotate,
      pthread_mutex_lock, pthread_mutex_unlock, emit, modifyWorld,
      throwExn, h]

theorem grab_emitted (env : Env) (w : World) :
    emitted w (RaspiCamera.grab env w).2 = [.lock, .cv .grab, .unlock] := by
  rw [grab_run]; exact emitted_append _ _ _ rfl

theorem retrieve_emitted (env : Env) (w : World) :
    emitted w (RaspiCamera.retrieve env w).2 = [.lock, .cv .retrieve, .unlock] := by
  rw [retrieve_run]; exact emitted_append _ _ _ rfl

theorem takeImage_run_grab_raises (env : Env) (w : World) (m : String)
    (hg : env.cv .grab = some m) :
    RaspiCamera.takeImage env w =
      (.error (.OpenCVException m),
       { w with m_lock := false, trace := w.trace ++ [.lock, .cv .grab, .unlock] }) := by
  unfold RaspiCamera.takeImage tryCatchCv
  simp [M.bind, cvCall_run, m_camera_grab, m_camera_retrieve, Image.rotate,
      pthread_mutex_lock, pthread_mutex_unlock, emit, modifyWorld,
    throwExn, getWorld, tryToUpdateCapture, RaspiCamera.update, usleep, hg]

theorem takeImage_run_retrieve_raises (env : Env) (w : World) (m : String)
    (hg : env.cv .grab = none) (hr : env.cv .retrieve = some m) :
    RaspiCamera.takeImage env w =
      (.error (.OpenCVException m),
       { w with m_lock := false,
                trace := w.trace ++ [.lock, .cv .grab, .cv .retrieve, .unlock] }) := by
  unfold RaspiCamera.takeImage tryCatchCv
  simp [M.bind, cvCall_run, m_camera_grab, m_camera_retrieve, Image.rotate,
      pthread_mutex_lock, pthread_mutex_unlock, emit, modifyWorld,
    throwExn, getWorld, tryToUpdateCapture, RaspiCamera.update, usleep, hg, hr]

theorem takeImage_run_rotate_raises (env : Env) (w : World) (m : String)
    (hg : env.cv .grab = none) (hr : env.cv .retrieve = none)
    (ho : env.cv (.rotate w.m_angle) = some m) :
    RaspiCamera.takeImage env w =
      (.error (.OpenCVException m),
       { w with m_lock := false,
                trace := w.trace ++
                  [.lock, .cv .grab, .cv .retrieve, .unlock, .cv (.rotate w.m_angle),
                   .unlock] }) := by
  unfold RaspiCamera.takeImage tryCatchCv
  simp [M.bind, cvCall_run, m_camera_grab, m_camera_retrieve, Image.rotate,
      pthread_mutex_lock, pthread_mutex_unlock, emit, modifyWorld,
    throwExn, getWorld, tryToUpdateCapture, RaspiCamera.update, usleep, hg, hr, ho]

theorem takeImage_run_ok (env : Env) (w : World)
    (hg : env.cv .grab = none) (hr : env.cv .retrieve = none)
    (ho : env.cv (.rotate w.m_angle) = none) :
    RaspiCamera.takeImage env w =
      (.ok { retrieved := true, rotations := [w.m_angle] },
       { w with m_lock := false,
                trace := w.trace ++
                  [.lock, .cv .grab, .cv .retrieve, .unlock, .cv (.rotate w.m_angle)] }) := by
  unfold RaspiCamera.takeImage tryCatchCv
  simp [M.bind, cvCall_run, m_camera_grab, m_camera_retrieve, Image.rotate,
      pthread_mutex_lock, pthread_mutex_unlock, emit, modifyWorld,
    throwExn, getWorld, tryToUpdateCapture, RaspiCamera.update, usleep, hg, hr, ho]

/-- The four ways through `takeImage`, by the first driver call that
raises. -/
theorem takeImage_cases (env : Env) (w : World) :
    (∃ m, env.cv .grab = some m ∧
      (RaspiCamera.takeImage env w).1 = .error (.OpenCVException m) ∧
      emitted w (RaspiCamera.takeImage env w).2 = [.lock, .cv .grab, .unlock])
    ∨ (∃ m, env.cv .grab = none ∧ env.cv .retrieve = some m ∧
      (RaspiCamera.takeImage env w).1 = .error (.OpenCVException m) ∧
      emitted w (RaspiCamera.takeImage env w).2 = [.lock, .cv .grab, .cv .retrieve, .unlock])
    ∨ (∃ m, env.cv .grab = none ∧ env.cv .retrieve = none ∧
      env.cv (.rotate w.m_angle) = some m ∧
      (RaspiCamera.takeImage env w).1 = .error (.OpenCVException m) ∧
      emitted w (RaspiCamera.takeImage env w).2 =
        [.lock, .cv .grab, .cv .retrieve, .unlock, .cv (.rotate w.m_angle), .unlock])
    ∨ (env.cv .grab = none ∧ env.cv .retrieve = none ∧ env.cv (.rotate w.m_angle) = none ∧
      (RaspiCamera.takeImage env w).1 = .ok { retrieved := true, rotations := [w.m_angle] } ∧
      emitted w (RaspiCamera.takeImage env w).2 =
        [.lock, .cv .grab, .cv .retrieve, .unlock, .cv (.rotate w.m_angle)]) := by
  cases hg : env.cv .grab with
  | some m =>
    refine Or.inl ⟨m, rfl, ?_, ?_⟩
    · rw [takeImage_run_grab_raises env w m hg]
    · rw [takeImage_run_grab_raises env w m hg]; exact emitted_append _ _ _ rfl
  | none =>
    cases hr : env.cv .retrieve with
    | some m =>
      refine Or.inr (Or.inl ⟨m, rfl, rfl, ?_, ?_⟩)
      · rw [takeImage_run_retrieve_raises env w m hg hr]
      · rw [takeImage_run_retrieve_raises env w m hg hr]; exact emitted_append _ _ _ rfl
    | none =>
      cases ho : env.cv (.rotate w.m_angle) with
      | some m =>
        refine Or.inr (Or.inr (Or.inl ⟨m, rfl, rfl, rfl, ?_, ?_⟩))
        · rw [takeImage_run_rotate_raises env w m hg hr ho]
        · rw [takeImage_run_rotate_raises env w m hg hr ho]; exact emitted_append _ _ _ rfl
      | none =>
        refine Or.inr (Or.inr (Or.inr ⟨rfl, rfl, rfl, ?_, ?_⟩))
        · rw [takeImage_run_ok env w hg hr ho]
        · rw [takeImage_run_ok env w hg hr ho]; exact emitted_append _ _ _ rfl

/-! ## Running `setImageSize`, `close`, `isOpened` and `setup` -/

/-- The events of `setImageSize`: the `set` calls up to the first that
raises, followed by the unlock of the handler when one raises. -/
theorem setImageSize_emitted (env : Env) (width height : Int) (w : World) :
    ∃ rest, emitted w (RaspiCamera.setImageSize env width height w).2 =
        .cv (.set .CV_CAP_PROP_FORMAT CV_8UC3) :: rest
      ∧ Ev.lock ∉ rest := by
  unfold RaspiCamera.setImageSize tryCatchCv
  cases h1 : env.cv (.set .CV_CAP_PROP_FORMAT CV_8UC3) with
  | some m =>
    exact ⟨[.unlock], emitted_append _ _ _ (by
      simp [M.bind, cvCall_run, m_camera_set, Capture.setImageSize, pthread_mutex_unlock, emit,
        modifyWorld, throwExn, getWorld, h1]), by simp⟩
  | none =>
    cases h2 : env.cv (.set .CV_CAP_PROP_FRAME_WIDTH width) with
    | some m =>
      exact ⟨[.cv (.set .CV_CAP_PROP_FRAME_WIDTH width), .unlock], emitted_append _ _ _ (by
        simp [M.bind, cvCall_run, m_camera_set, Capture.setImageSize, pthread_mutex_unlock, emit,
          modifyWorld, throwExn, getWorld, h1, h2]), by simp⟩
    | none =>
      cases h3 : env.cv (.set .CV_CAP_PROP_FRAME_HEIGHT height) with
      | some m =>
        exact ⟨[.cv (.set .CV_CAP_PROP_FRAME_WIDTH width),
            .cv (.set .CV_CAP_PROP_FRAME_HEIGHT height), .unlock], emitted_append _ _ _ (by
          simp [M.bind, cvCall_run, m_camera_set, Capture.setImageSize, pthread_mutex_unlock,
            emit, modifyWorld, throwExn, getWorld, h1, h2, h3]), by simp⟩
      | none =>
        exact ⟨[.cv (.set .CV_CAP_PROP_FRAME_WIDTH width),
            .cv (.set .CV_CAP_PROP_FRAME_HEIGHT height)], emitted_append _ _ _ (by
          simp [M.bind, cvCall_run, m_camera_set, Capture.setImageSize, pthread_mutex_unlock,
            emit, modifyWorld, throwExn, getWorld, h1, h2, h3]), by simp⟩

theorem close_state (env : Env) (w : World) :
    (RaspiCamera.close env w).2.state = w.state := by
  unfold RaspiCamera.close
  cases h : env.cv .release <;> simp [M.bind, cvCall_run, m_camera_release, modifyWorld, h]

theorem isOpened_run (w : World) : RaspiCamera.isOpened w = (.ok w.m_camera.opened, w) := by
  simp [RaspiCamera.isOpened, m_camera_isOpened, M.bind, getWorld]


theorem hwCall_run (env : Env) (c : HwCall) (w : World) :
    hwCall env c w =
      match (env.hw c).thrown with
      | some m => (.error (.hwFailure m), { w with trace := w.trace ++ [.hw c] })
      | none => (.ok (env.hw c).succeeded, { w with trace := w.trace ++ [.hw c] }) := by
  unfold hwCall
  cases h : env.hw c <;>
    simp [M.bind, emit, throwExn, HwOutcome.thrown, HwOutcome.succeeded]

@[simp]
theorem whenDone_true (f : State → State) (s : State) : whenDone true f s = f s := rfl

@[simp]
theorem whenDone_onCamera_running (done : Bool) (f : Camera → Camera) (s : State) :
    (whenDone done (State.onCamera f) s).running = s.running := by
  cases done <;> rfl

@[simp]
theorem whenDone_onPreview_running (done : Bool) (f : VideoEncode → VideoEncode) (s : State) :
    (whenDone done (State.onPreview f) s).running = s.running := by
  cases done <;> rfl

@[simp]
theorem whenDone_setLifecycle_running (done : Bool) (c : Slot) (target : ILState) (s : State) :
    (whenDone done (State.setLifecycle c target) s).running = s.running := by
  cases done <;> cases c <;> rfl

/-- What `open` does, by the first IL call in source order that throws: with
one, `open` throws that failure and `running` is as on entry; with none, it
returns with `running` set, after the complete event sequence.  A call that
returns an error changes none of this.  The members of the object are never
written. -/
theorem open_summary (env : Env) (w : World) :
    (RaspiCamera.open env w).1 =
        (match env.firstThrown with
         | none => .ok ()
         | some m => .error (.hwFailure m))
    ∧ (RaspiCamera.open env w).2.state.running =
        (match env.firstThrown with
         | none => true
         | some _ => w.state.running)
    ∧ (env.firstThrown = none → (RaspiCamera.open env w).2.trace = w.trace ++ openEvents)
    ∧ (RaspiCamera.open env w).2.m_camera = w.m_camera
    ∧ (RaspiCamera.open env w).2.m_lock = w.m_lock := by
  simp only [RaspiCamera.open, bind_run, newCamera, newVideoEncode, Camera.setFramerate,
    Component.CopyPort, Camera.SetupTunnelVideo, Component.SetState,
    Camera.AllocateOutputBuffer, VideoEncode.AllocateInputBuffer, Camera.SetCapturing,
    Env.firstThrown, openCalls, List.findSome?]
  cases h1 : (env.hw (.newCamera 1280 720 0 false 0 false)).thrown with
  | some m =>
    simp [M.bind, hwCall_run, bcm_host_init, emit, modifyState, modifyWorld, *]
  | none =>
    cases h2 : (env.hw (.newVideoEncode 8192 .CodingMJPEG false false)).thrown with
    | some m =>
      simp [M.bind, hwCall_run, bcm_host_init, emit, modifyState, modifyWorld, *]
    | none =>
      cases h3 : (env.hw (.newVideoEncode 4096 .CodingAVC false false)).thrown with
      | some m =>
        simp [M.bind, hwCall_run, bcm_host_init, emit, modifyState, modifyWorld, *]
      | none =>
        cases h4 : (env.hw (.setFramerate 30)).thrown with
        | some m =>
          simp [M.bind, hwCall_run, bcm_host_init, emit, modifyState, modifyWorld, *]
        | none =>
          cases h5 : (env.hw (.CopyPort .camera 70 .preview_encode 200)).thrown with
          | some m =>
            simp [M.bind, hwCall_run, bcm_host_init, emit, modifyState, modifyWorld, *]
          | none =>
            cases h6 : (env.hw (.SetupTunnelVideo .record_encode)).thrown with
            | some m =>
              simp [M.bind, hwCall_run, bcm_host_init, emit, modifyState, modifyWorld, *]
            | none =>
              cases h7 : (env.hw (.SetState .camera .StateIdle)).thrown with
              | some m =>
                simp [M.bind, hwCall_run, bcm_host_init, emit, modifyState, modifyWorld, *]
              | none =>
                cases h8 : (env.hw (.SetState .preview_encode .StateIdle)).thrown with
                | some m =>
                  simp [M.bind, hwCall_run, bcm_host_init, emit, modifyState, modifyWorld, *]
                | none =>
                  cases h9 : (env.hw (.SetState .record_encode .StateIdle)).thrown with
                  | some m =>
                    simp [M.bind, hwCall_run, bcm_host_init, emit, modifyState, modifyWorld, *]
                  | none =>
                    cases h10 : (env.hw (.AllocateOutputBuffer .camera 70)).thrown with
                    | some m =>
                      simp [M.bind, hwCall_run, bcm_host_init, emit, modifyState, modifyWorld, *]
                    | none =>
                      cases h11 : (env.hw (.AllocateInputBuffer .preview_encode 200)).thrown with
                      | some m =>
                        simp [M.bind, hwCall_run, bcm_host_init, emit, modifyState, modifyWorld, *]
                      | none =>
                        cases h12 : (env.hw (.SetState .camera .StateExecuting)).thrown with
                        | some m =>
                          simp [M.bind, hwCall_run, bcm_host_init, emit, modifyState, modifyWorld, *]
                        | none =>
                          cases h13 : (env.hw (.SetState .preview_encode .StateExecuting)).thrown with
                          | some m =>
                            simp [M.bind, hwCall_run, bcm_host_init, emit, modifyState, modifyWorld, *]
                          | none =>
                            cases h14 : (env.hw (.SetState .record_encode .StateExecuting)).thrown with
                            | some m =>
                              simp [M.bind, hwCall_run, bcm_host_init, emit, modifyState, modifyWorld, *]
                            | none =>
                              cases h15 : (env.hw (.SetCapturing true)).thrown with
                              | some m =>
                                simp [M.bind, hwCall_run, bcm_host_init, emit, modifyState, modifyWorld, *]
                              | none =>
                                simp [M.bind, hwCall_run, bcm_host_init, emit, modifyState, modifyWorld,
                                  openEvents, openCalls, *]

/-- When every step succeeds, `open` returns and leaves the complete pipeline
state. -/
theorem open_state_of_all_ok (env : Env) (w : World) (hall : ∀ c ∈ openCalls, env.hw c = .ok) :
    (RaspiCamera.open env w).2.state = openedState w.state.recording := by
  simp only [openCalls, List.mem_cons, List.mem_singleton, forall_eq_or_imp, forall_eq,
    List.not_mem_nil, false_imp_iff, implies_true, and_true] at hall
  obtain ⟨h1, h2, h3, h4, h5, h6, h7, h8, h9, h10, h11, h12, h13, h14, h15⟩ := hall
  simp [RaspiCamera.open, newCamera, newVideoEncode, Camera.setFramerate,
    Component.CopyPort, Camera.SetupTunnelVideo, Component.SetState,
    Camera.AllocateOutputBuffer, VideoEncode.AllocateInputBuffer, Camera.SetCapturing,
    M.bind, hwCall_run, bcm_host_init, emit, modifyState, modifyWorld, HwOutcome.thrown,
    HwOutcome.succeeded, State.onCamera, State.onPreview, State.onRecord, State.setLifecycle,
    openedState, h1, h2, h3, h4, h5, h6, h7, h8, h9, h10, h11, h12, h13, h14, h15]

/-- No step throws exactly when `firstThrown` finds nothing. -/
theorem firstThrown_eq_none_iff (env : Env) :
    env.firstThrown = none ↔ ∀ c ∈ openCalls, ∀ m, env.hw c ≠ .throws m := by
  unfold Env.firstThrown
  rw [List.findSome?_eq_none_iff]
  constructor
  · intro h c hc m hm
    have := h c hc
    rw [hm] at this
    cases this
  · intro h c hc
    cases hout : env.hw c with
    | throws m => exact absurd hout (h c hc m)
    | ok => rfl
    | returnsError m => rfl

/-- When each step succeeds or throws and none throws, every step
succeeds. -/
theorem all_ok_of_succeedsOrThrows (env : Env) (hclean : env.succeedsOrThrows = true)
    (hnone : env.firstThrown = none) : ∀ c ∈ openCalls, env.hw c = .ok := by
  intro c hc
  have h1 := (firstThrown_eq_none_iff env).mp hnone c hc
  have h2 := List.all_eq_true.mp hclean c hc
  cases hout : env.hw c with
  | ok => rfl
  | throws m => exact absurd hout (h1 m)
  | returnsError m => rw [hout] at h2; cases h2

/-- When every step of `open` succeeds, the pipeline state it leaves
satisfies the invariant. -/
theorem pipelineInvariant_openedState (recording : Bool) :
    pipelineInvariant (openedState recording) := by
  intro _
  exact ⟨rfl, rfl⟩

/-- An `open()` entered with `running == false` leaves a state that satisfies
the invariant when it throws. -/
theorem open_invariant_of_throw (env : Env) (w : World)
    (hstart : w.state.running = false) (e : Exn)
    (hthrow : (RaspiCamera.open env w).1 = .error e) :
    pipelineInvariant (RaspiCamera.open env w).2.state := by
  obtain ⟨hres, hrun, -, -, -⟩ := open_summary env w
  cases hff : env.firstThrown with
  | none =>
    rw [hff, hthrow] at hres
    cases hres
  | some m =>
    rw [hff] at hrun
    intro h
    rw [hrun, hstart] at h
    cases h

/-- An `open()` entered with `running == false`, each step of which succeeds
or throws, leaves a state that satisfies the invariant. -/
theorem open_invariant_of_not_running (env : Env) (w : World)
    (hstart : w.state.running = false) (hclean : env.succeedsOrThrows = true) :
    pipelineInvariant (RaspiCamera.open env w).2.state := by
  obtain ⟨hres, -, -, -, -⟩ := open_summary env w
  cases hff : env.firstThrown with
  | none =>
    rw [open_state_of_all_ok env w (all_ok_of_succeedsOrThrows env hclean hff)]
    exact pipelineInvariant_openedState _
  | some m =>
    rw [hff] at hres
    exact open_invariant_of_throw env w hstart _ hres

/-- The invariant survives every sequence of calls that never enters `open()`
while `running` is already `true` and in which no step of an `open()` returns
an error. -/
theorem runOps_invariant (ops : List Op) :
    ∀ w : World, pipelineInvariant w.state → noReopen w ops = true →
      (∀ op ∈ ops, op.succeedsOrThrows = true) →
      pipelineInvariant (runOps ops w).state := by
  induction ops with
  | nil => intro w hinv _ _; exact hinv
  | cons op ops ih =>
    intro w hinv hno hclean
    have hrest : ∀ op' ∈ ops, op'.succeedsOrThrows = true :=
      fun op' h => hclean op' (List.mem_cons_of_mem _ h)
    have hop := hclean op (List.mem_cons_self _ _)
    cases op with
    | «open» env =>
      simp only [noReopen, Bool.and_eq_true, Bool.not_eq_true', Op.run] at hno
      exact ih _ (open_invariant_of_not_running env w hno.1 hop) hno.2 hrest
    | close env =>
      simp only [noReopen, Op.run] at hno
      refine ih _ ?_ hno hrest
      show pipelineInvariant (RaspiCamera.close env w).2.state
      rw [close_state]
      exact hinv

/-! ## Claim C1 -/

/-- Claim C1 refuted at a concrete input: starting with `running == false`,
the preview encoder rejects the Executing transition through the result of
`SetState`; `open()` does not look at the result, returns normally and sets
`running`, with the preview encoder still Idle. -/
theorem open_sets_running_after_rejected_transition :
    World.initial.state.running = false
    ∧ HwCall.SetState .preview_encode .StateExecuting ∈ openCalls
    ∧ (Env.hwReturnsError (.SetState .preview_encode .StateExecuting) "rejected").hw
        (.SetState .preview_encode .StateExecuting) = .returnsError "rejected"
    ∧ (RaspiCamera.open
        (Env.hwReturnsError (.SetState .preview_encode .StateExecuting) "rejected")
        World.initial).1 = .ok ()
    ∧ (RaspiCamera.open
        (Env.hwReturnsError (.SetState .preview_encode .StateExecuting) "rejected")
        World.initial).2.state.running = true
    ∧ ((RaspiCamera.open
        (Env.hwReturnsError (.SetState .preview_encode .StateExecuting) "rejected")
        World.initial).2.state.preview_encode.map fun p => p.state)
        = some (some .StateIdle) := by
  refine ⟨rfl, by decide, rfl, rfl, rfl, rfl⟩

/-- Claim C1 as amended. Starting with `running == false`: if any step of
`open()` fails by throwing, `open()` throws the failure of the first step
that throws and `running` is still `false`; `running` is `true` after
`open()` only if `open()` returned and no step threw; and when every step
succeeds, `open()` returns with `running == true`. -/
theorem open_throw_leaves_running_false (env : Env) (w : World)
    (hstart : w.state.running = false) :
    (∀ c ∈ openCalls, ∀ m, env.hw c = .throws m →
        (∃ m', env.firstThrown = some m'
          ∧ (RaspiCamera.open env w).1 = .error (.hwFailure m'))
        ∧ (RaspiCamera.open env w).2.state.running = false)
    ∧ ((RaspiCamera.open env w).2.state.running = true →
        (RaspiCamera.open env w).1 = .ok () ∧ ∀ c ∈ openCalls, ∀ m, env.hw c ≠ .throws m)
    ∧ ((∀ c ∈ openCalls, env.hw c = .ok) →
        (RaspiCamera.open env w).1 = .ok ()
        ∧ (RaspiCamera.open env w).2.state.running = true) := by
  obtain ⟨hres, hrun, -, -, -⟩ := open_summary env w
  refine ⟨?_, ?_, ?_⟩
  · intro c hc m hm
    cases hff : env.firstThrown with
    | none => exact absurd hm ((firstThrown_eq_none_iff env).mp hff c hc m)
    | some m' =>
      rw [hff] at hres hrun
      exact ⟨⟨m', rfl, hres⟩, hrun.trans hstart⟩
  · intro htrue
    cases hff : env.firstThrown with
    | none =>
      rw [hff] at hres
      exact ⟨hres, (firstThrown_eq_none_iff env).mp hff⟩
    | some m' =>
      rw [hff] at hrun
      rw [hrun, hstart] at htrue
      cases htrue
  · intro hall
    have hff : env.firstThrown = none := by
      rw [firstThrown_eq_none_iff]
      intro c hc m hm
      rw [hall c hc] at hm
      cases hm
    rw [hff] at hres hrun
    exact ⟨hres, hrun⟩

/-- Claim C1 as amended, at a concrete input: the preview encoder throws on
the Executing transition, `open()` throws that failure and `running` stays
`false`. -/
theorem open_throw_leaves_running_false_witness :
    World.initial.state.running = false
    ∧ (RaspiCamera.open
        (Env.hwThrows (.SetState .preview_encode .StateExecuting) "rejected") World.initial).1
        = .error (.hwFailure "rejected")
    ∧ (RaspiCamera.open
        (Env.hwThrows (.SetState .preview_encode .StateExecuting) "rejected")
        World.initial).2.state.running = false :=
  ⟨rfl, rfl,
   ((open_throw_leaves_running_false
      (Env.hwThrows (.SetState .preview_encode .StateExecuting) "rejected") World.initial rfl).1
      (.SetState .preview_encode .StateExecuting) (by decide) "rejected" rfl).2⟩

/-! ## Claim C2 -/

/-- Claim C2. For `grab()` and for `retrieve()`, entered with the lock free,
whatever the driver does (return or raise): the events of the call are
exactly lock, the driver call, unlock; so the driver call is made while the
lock is held, every lock and unlock is well placed, the lock is released
exactly once, and it is free when the call exits. -/
theorem grab_retrieve_release_lock_exactly_once (env : Env) (w : World)
    (hfree : w.m_lock = false) :
    (emitted w (RaspiCamera.grab env w).2 = [.lock, .cv .grab, .unlock]
      ∧ guardedFrom w.m_lock (emitted w (RaspiCamera.grab env w).2) = true
      ∧ disciplinedFrom w.m_lock (emitted w (RaspiCamera.grab env w).2) = true
      ∧ (emitted w (RaspiCamera.grab env w).2).count .unlock = 1
      ∧ (RaspiCamera.grab env w).2.m_lock = false)
    ∧ (emitted w (RaspiCamera.retrieve env w).2 = [.lock, .cv .retrieve, .unlock]
      ∧ guardedFrom w.m_lock (emitted w (RaspiCamera.retrieve env w).2) = true
      ∧ disciplinedFrom w.m_lock (emitted w (RaspiCamera.retrieve env w).2) = true
      ∧ (emitted w (RaspiCamera.retrieve env w).2).count .unlock = 1
      ∧ (RaspiCamera.retrieve env w).2.m_lock = false) := by
  rw [grab_emitted, retrieve_emitted, hfree]
  refine ⟨⟨rfl, rfl, rfl, by decide, ?_⟩, ⟨rfl, rfl, rfl, by decide, ?_⟩⟩
  · rw [grab_run]
  · rw [retrieve_run]

/-- Claim C2 on the exception path at a concrete input: the driver raises in
`grab`, and the lock, free on entry, is released once and free on exit. -/
theorem grab_retrieve_release_lock_exactly_once_witness :
    World.initial.m_lock = false
    ∧ (RaspiCamera.grab (Env.cvFails .grab "device lost") World.initial).1
        = .error (.OpenCVException "device lost")
    ∧ (emitted World.initial
        (RaspiCamera.grab (Env.cvFails .grab "device lost") World.initial).2).count .unlock = 1
    ∧ (RaspiCamera.grab (Env.cvFails .grab "device lost") World.initial).2.m_lock = false :=
  ⟨rfl, rfl,
   (grab_retrieve_release_lock_exactly_once (Env.cvFails .grab "device lost")
      World.initial rfl).1.2.2.2.1,
   (grab_retrieve_release_lock_exactly_once (Env.cvFails .grab "device lost")
      World.initial rfl).1.2.2.2.2⟩

/-! ## Claim C3 -/

/-- Claim C3, the failing path. When `grab` and `retrieve` return and the
rotation raises, `takeImage()` has already released the lock and its handler
unlocks again: one lock, two unlocks, the second on a free mutex. -/
theorem takeImage_rotation_failure_unlocks_twice :
    (RaspiCamera.takeImage (Env.cvFails (.rotate 0) "rotation failed") World.initial).1
        = .error (.OpenCVException "rotation failed")
    ∧ emitted World.initial
        (RaspiCamera.takeImage (Env.cvFails (.rotate 0) "rotation failed") World.initial).2
        = [.lock, .cv .grab, .cv .retrieve, .unlock, .cv (.rotate 0), .unlock]
    ∧ (emitted World.initial
        (RaspiCamera.takeImage (Env.cvFails (.rotate 0) "rotation failed")
          World.initial).2).count .lock = 1
    ∧ (emitted World.initial
        (RaspiCamera.takeImage (Env.cvFails (.rotate 0) "rotation failed")
          World.initial).2).count .unlock = 2
    ∧ disciplinedFrom false (emitted World.initial
        (RaspiCamera.takeImage (Env.cvFails (.rotate 0) "rotation failed")
          World.initial).2) = false :=
  ⟨rfl, rfl, rfl, rfl, rfl⟩

/-- Apart from the path on which the rotation raises, `takeImage()` entered
with the lock free keeps the lock discipline: one lock, one unlock on the
held mutex, both driver calls under the lock, the lock free on exit. -/
theorem takeImage_balanced_unless_rotation_raises (env : Env) (w : World)
    (hfree : w.m_lock = false)
    (hrot : env.cv .grab = none → env.cv .retrieve = none →
      env.cv (.rotate w.m_angle) = none) :
    disciplinedFrom w.m_lock (emitted w (RaspiCamera.takeImage env w).2) = true
    ∧ guardedFrom w.m_lock (emitted w (RaspiCamera.takeImage env w).2) = true
    ∧ (emitted w (RaspiCamera.takeImage env w).2).count .lock = 1
    ∧ (emitted w (RaspiCamera.takeImage env w).2).count .unlock = 1 := by
  rw [hfree]
  rcases takeImage_cases env w with ⟨m', hg, hres, hev⟩ | ⟨m', hg, hr, hres, hev⟩ |
    ⟨m', hg, hr, ho, hres, hev⟩ | ⟨hg, hr, ho, hres, hev⟩
  · rw [hev]; exact ⟨rfl, rfl, by decide, by decide⟩
  · rw [hev]; exact ⟨rfl, rfl, by decide, by decide⟩
  · rw [hrot hg hr] at ho; cases ho
  · rw [hev]
    refine ⟨rfl, rfl, ?_, ?_⟩ <;> simp

/-! ## Claim C4 -/

/-- Claim C4, the failing behaviour. The camera handle starts closed, so
`isOpened()` returns `false` before `open()`; every step of `open()`
succeeds and `running` is set; `open()` has not acted on the handle, and
`isOpened()` still returns `false`. -/
theorem isOpened_false_after_successful_open :
    World.initial.m_camera.opened = false
    ∧ (RaspiCamera.isOpened World.initial).1 = .ok false
    ∧ (RaspiCamera.open Env.allOk World.initial).1 = .ok ()
    ∧ (RaspiCamera.open Env.allOk World.initial).2.state.running = true
    ∧ (RaspiCamera.open Env.allOk World.initial).2.m_camera = World.initial.m_camera
    ∧ (RaspiCamera.isOpened (RaspiCamera.open Env.allOk World.initial).2).1 = .ok false :=
  ⟨rfl, rfl, rfl, rfl, rfl, rfl⟩

/-! ## Claim C5 -/

/-- Claim C5. For each of `grab()`, `retrieve()` and `takeImage()`: whenever
a driver call made during the call raises `cv::Exception` with message `m`,
the call fails with `OpenCVException` carrying exactly `m` and that driver
call occurs exactly once among the events of the call; when no driver call
made during the call raises, the call returns normally. -/
theorem driver_exception_becomes_typed_error_without_retry (env : Env) (w : World) :
    ((∀ c m, Ev.cv c ∈ emitted w (RaspiCamera.grab env w).2 → env.cv c = some m →
        (RaspiCamera.grab env w).1 = .error (.OpenCVException m)
        ∧ (emitted w (RaspiCamera.grab env w).2).count (.cv c) = 1)
      ∧ ((∀ c, Ev.cv c ∈ emitted w (RaspiCamera.grab env w).2 → env.cv c = none) →
        (RaspiCamera.grab env w).1 = .ok ()))
    ∧ ((∀ c m, Ev.cv c ∈ emitted w (RaspiCamera.retrieve env w).2 → env.cv c = some m →
        (RaspiCamera.retrieve env w).1 = .error (.OpenCVException m)
        ∧ (emitted w (RaspiCamera.retrieve env w).2).count (.cv c) = 1)
      ∧ ((∀ c, Ev.cv c ∈ emitted w (RaspiCamera.retrieve env w).2 → env.cv c = none) →
        ∃ image, (RaspiCamera.retrieve env w).1 = .ok image))
    ∧ ((∀ c m, Ev.cv c ∈ emitted w (RaspiCamera.takeImage env w).2 → env.cv c = some m →
        (RaspiCamera.takeImage env w).1 = .error (.OpenCVException m)
        ∧ (emitted w (RaspiCamera.takeImage env w).2).count (.cv c) = 1)
      ∧ ((∀ c, Ev.cv c ∈ emitted w (RaspiCamera.takeImage env w).2 → env.cv c = none) →
        ∃ image, (RaspiCamera.takeImage env w).1 = .ok image)) := by
  refine ⟨⟨?_, ?_⟩, ⟨?_, ?_⟩, ⟨?_, ?_⟩⟩
  · intro c m hc hm
    rw [grab_emitted] at hc ⊢
    simp at hc
    subst hc
    rw [grab_run, hm]
    exact ⟨rfl, by decide⟩
  · intro h
    have hg := h .grab (by rw [grab_emitted]; simp)
    rw [grab_run, hg]
  · intro c m hc hm
    rw [retrieve_emitted] at hc ⊢
    simp at hc
    subst hc
    rw [retrieve_run, hm]
    exact ⟨rfl, by decide⟩
  · intro h
    have hr := h .retrieve (by rw [retrieve_emitted]; simp)
    rw [retrieve_run, hr]
    exact ⟨_, rfl⟩
  · intro c m hc hm
    rcases takeImage_cases env w with ⟨m', hg, hres, hev⟩ | ⟨m', hg, hr, hres, hev⟩ |
      ⟨m', hg, hr, ho, hres, hev⟩ | ⟨hg, hr, ho, hres, hev⟩
    · rw [hev] at hc ⊢
      simp at hc
      subst hc
      rw [hg] at hm
      cases hm
      exact ⟨hres, by decide⟩
    · rw [hev] at hc ⊢
      simp at hc
      rcases hc with hc | hc
      · subst hc; rw [hg] at hm; cases hm
      · subst hc; rw [hr] at hm; cases hm
        exact ⟨hres, by decide⟩
    · rw [hev] at hc ⊢
      simp at hc
      rcases hc with hc | hc | hc
      · subst hc; rw [hg] at hm; cases hm
      · subst hc; rw [hr] at hm; cases hm
      · subst hc; rw [ho] at hm; cases hm
        refine ⟨hres, ?_⟩
        simp
    · rw [hev] at hc
      simp at hc
      rcases hc with hc | hc | hc
      · subst hc; rw [hg] at hm; cases hm
      · subst hc; rw [hr] at hm; cases hm
      · subst hc; rw [ho] at hm; cases hm
  · intro h
    rcases takeImage_cases env w with ⟨m', hg, hres, hev⟩ | ⟨m', hg, hr, hres, hev⟩ |
      ⟨m', hg, hr, ho, hres, hev⟩ | ⟨hg, hr, ho, hres, hev⟩
    · have := h .grab (by rw [hev]; simp)
      rw [hg] at this; cases this
    · have := h .retrieve (by rw [hev]; simp)
      rw [hr] at this; cases this
    · have := h (.rotate w.m_angle) (by rw [hev]; simp)
      rw [ho] at this; cases this
    · exact ⟨_, hres⟩

/-- Claim C5 at concrete inputs: `retrieve` raises inside `takeImage()`, which
fails with that very message after a single `retrieve`; and with a driver
that raises nothing `takeImage()` returns an image. -/
theorem driver_exception_becomes_typed_error_without_retry_witness :
    ((RaspiCamera.takeImage (Env.cvFails .retrieve "no frame") World.initial).1
        = .error (.OpenCVException "no frame")
      ∧ (emitted World.initial
          (RaspiCamera.takeImage (Env.cvFails .retrieve "no frame") World.initial).2).count
          (.cv .retrieve) = 1)
    ∧ (∃ image, (RaspiCamera.takeImage Env.allOk World.initial).1 = .ok image) :=
  ⟨(driver_exception_becomes_typed_error_without_retry (Env.cvFails .retrieve "no frame")
      World.initial).2.2.1 .retrieve "no frame" (by decide) rfl,
   (driver_exception_becomes_typed_error_without_retry Env.allOk World.initial).2.2.2
      (fun _ _ => rfl)⟩

/-! ## Claim C6 -/

/-- Claim C6, the failing behaviour. For every input, `setImageSize()` never
acquires the lock: no lock event occurs during the call, its first event is
the `set` of the format on the camera handle, and entered with the lock free
that access is made while the lock is not held. -/
theorem setImageSize_touches_handle_without_lock (env : Env) (width height : Int) (w : World) :
    Ev.lock ∉ emitted w (RaspiCamera.setImageSize env width height w).2
    ∧ (emitted w (RaspiCamera.setImageSize env width height w).2).head?
        = some (.cv (.set .CV_CAP_PROP_FORMAT CV_8UC3))
    ∧ guardedFrom false (emitted w (RaspiCamera.setImageSize env width height w).2) = false := by
  obtain ⟨rest, hev, hrest⟩ := setImageSize_emitted env width height w
  rw [hev]
  refine ⟨?_, rfl, ?_⟩
  · simpa using hrest
  · simp [guardedFrom, CvCall.onHandle]

/-! ## Claim C7 -/

/-- Claim C7. For every settings map in which at least one of the four keys
is missing, `setup()` fails (with the `std::out_of_range` of the lookup) and
the world is exactly as on entry: no event was recorded, so no call on the
camera handle and no step of `open()`, and the pipeline state is unchanged. -/
theorem setup_missing_key_fails_before_hardware (env : Env) (settings : StringMap) (w : World)
    (hmissing : settings.lookup "captures.RaspiCamera.frameWidth" = none
      ∨ settings.lookup "captures.RaspiCamera.frameHeight" = none
      ∨ settings.lookup "captures.RaspiCamera.angle" = none
      ∨ settings.lookup "captures.RaspiCamera.delay" = none) :
    RaspiCamera.setup env settings w = (.error .out_of_range, w) := by
  unfold RaspiCamera.setup
  cases h1 : settings.lookup "captures.RaspiCamera.frameWidth" with
  | none => simp [M.bind, StringMap.at, throwExn, h1]
  | some v1 =>
    cases h2 : settings.lookup "captures.RaspiCamera.frameHeight" with
    | none => simp [M.bind, StringMap.at, throwExn, h1, h2]
    | some v2 =>
      cases h3 : settings.lookup "captures.RaspiCamera.angle" with
      | none => simp [M.bind, StringMap.at, throwExn, h1, h2, h3]
      | some v3 =>
        cases h4 : settings.lookup "captures.RaspiCamera.delay" with
        | none => simp [M.bind, StringMap.at, throwExn, h1, h2, h3, h4]
        | some v4 => simp [h1, h2, h3, h4] at hmissing

/-- Claim C7 at a concrete input: the `angle` key is missing. -/
theorem setup_missing_key_fails_before_hardware_witness :
    settingsWithoutAngle.lookup "captures.RaspiCamera.angle" = none
    ∧ RaspiCamera.setup Env.allOk settingsWithoutAngle World.initial
        = (.error .out_of_range, World.initial) :=
  ⟨by decide,
   setup_missing_key_fails_before_hardware Env.allOk settingsWithoutAngle World.initial
     (Or.inr (Or.inr (Or.inl (by decide))))⟩

/-! ## Claim C8 -/

/-- Claim C8, the failing behaviour. With 640x480 configured and every call
succeeding, `setup()` stores 640x480 in the object and passes it to the
camera handle, while the `open()` it runs creates the sensor with 1280x720;
the preview encoder is created with MJPEG and the record encoder with AVC. -/
theorem setup_640x480_creates_sensor_1280x720 :
    (RaspiCamera.setup Env.allOk settings640x480 World.initial).1 = .ok ()
    ∧ (RaspiCamera.setup Env.allOk settings640x480 World.initial).2.m_frameWidth = 640
    ∧ (RaspiCamera.setup Env.allOk settings640x480 World.initial).2.m_frameHeight = 480
    ∧ Ev.cv (.set .CV_CAP_PROP_FRAME_WIDTH 640)
        ∈ (RaspiCamera.setup Env.allOk settings640x480 World.initial).2.trace
    ∧ Ev.hw (.newCamera 1280 720 0 false 0 false)
        ∈ (RaspiCamera.setup Env.allOk settings640x480 World.initial).2.trace
    ∧ ((RaspiCamera.setup Env.allOk settings640x480 World.initial).2.state.camera.map
        fun c => (c.width, c.height)) = some (1280, 720)
    ∧ ((RaspiCamera.setup Env.allOk settings640x480 World.initial).2.state.preview_encode.map
        fun p => p.coding) = some .CodingMJPEG
    ∧ ((RaspiCamera.setup Env.allOk settings640x480 World.initial).2.state.record_encode.map
        fun r => r.coding) = some .CodingAVC := by
  refine ⟨rfl, rfl, rfl, by decide, by decide, rfl, rfl, rfl⟩

/-! ## Claim C9 -/

/-- Claim C10. A successful `open()`, that is every `open()` that returns,
issues exactly these hardware calls, in this order, and then sets `running`
(whatever the calls themselves returned); so every port binding and buffer
allocation precedes every Executing transition, no transition is requested
twice, and no buffer is allocated for the record encoder. -/
theorem open_issues_steps_in_order (env : Env) (w : World)
    (hok : (RaspiCamera.open env w).1 = .ok ()) :
    emitted w (RaspiCamera.open env w).2 =
      [ .hw .bcm_host_init,
        .hw (.newCamera 1280 720 0 false 0 false),
        .hw (.newVideoEncode 8192 .CodingMJPEG false false),
        .hw (.newVideoEncode 4096 .CodingAVC false false),
        .hw (.setFramerate 30),
        .hw (.CopyPort .camera 70 .preview_encode 200),
        .hw (.SetupTunnelVideo .record_encode),
        .hw (.SetState .camera .StateIdle),
        .hw (.SetState .preview_encode .StateIdle),
        .hw (.SetState .record_encode .StateIdle),
        .hw (.AllocateOutputBuffer .camera 70),
        .hw (.AllocateInputBuffer .preview_encode 200),
        .hw (.SetState .camera .StateExecuting),
        .hw (.SetState .preview_encode .StateExecuting),
        .hw (.SetState .record_encode .StateExecuting),
        .hw (.SetCapturing true) ]
    ∧ (RaspiCamera.open env w).2.state.running = true
    ∧ bindingsPrecedeExecuting (emitted w (RaspiCamera.open env w).2) = true
    ∧ ((emitted w (RaspiCamera.open env w).2).filter Ev.isBindingOrAllocation).length = 4
    ∧ ((emitted w (RaspiCamera.open env w).2).filter Ev.isTransition).Nodup
    ∧ (emitted w (RaspiCamera.open env w).2).all
        (fun e => !e.allocatesFor .record_encode) = true := by
  obtain ⟨hres, hrun, htrace, -, -⟩ := open_summary env w
  cases hff : env.firstThrown with
  | some m =>
    rw [hff, hok] at hres
    cases hres
  | none =>
    rw [hff] at hrun
    have hev : emitted w (RaspiCamera.open env w).2 = openEvents :=
      emitted_append _ _ _ (htrace hff)
    rw [hev]
    exact ⟨rfl, hrun, by decide, by decide, by decide, by decide⟩

/-- Claim C10 at a concrete input: with every call succeeding `open()`
returns, having requested the three Executing transitions last but for
`SetCapturing`. -/
theorem open_issues_steps_in_order_witness :
    (RaspiCamera.open Env.allOk World.initial).1 = .ok ()
    ∧ (RaspiCamera.open Env.allOk World.initial).2.state.running = true
    ∧ bindingsPrecedeExecuting
        (emitted World.initial (RaspiCamera.open Env.allOk World.initial).2) = true :=
  ⟨rfl, (open_issues_steps_in_order Env.allOk World.initial rfl).2.1,
   (open_issues_steps_in_order Env.allOk World.initial rfl).2.2.1⟩

end kerberos
